import Mathlib

/-!
Verification of the NIT reconciliation pipeline (UCMDB / ITSM).

Shallow embedding of the Python sources:
  * `src/report.py`    — report acquisition (truncated-JSON recovery) and
                          NIT consistency validation,
  * `src/processor.py` — enrichment with foreign-object (FO) data and
                          JSON integrity validation,
  * `src/ucmdb_operations.py` — DELETE orchestration with retries,
  * `src/itsm_operations.py`  — PUT orchestration with retries,
  * `src/main.py`      — composition and exit codes.

Python dicts holding JSON records are embedded as structures whose string
fields are `Option String` (`none` = key absent or JSON null; the two are
conflated because every consumer reads them with `dict.get`).  Python
dictionaries used as indices are association lists with last-write-wins
insertion (`dset`) and key lookup (`dget`).  `str.strip()` is `String.quitarEspacios`
and `str.isalpha` is `Char.isAlpha` (the inputs under reconciliation are
ASCII identifiers).
-/

/-- Association-list dictionary keyed by strings. -/
abbrev Dict (α : Type) := List (String × α)

/-- Lookup, mirroring Python `d.get(k)` (returns `None` when absent). -/
def dget {α : Type} (d : Dict α) (k : String) : Option α :=
  (d.find? (fun p => p.1 == k)).map (fun p => p.2)

/-- Insertion with overwrite, mirroring Python `d[k] = v`. -/
def dset {α : Type} (d : Dict α) (k : String) (v : α) : Dict α :=
  (k, v) :: d.filter (fun p => p.1 != k)

/-- Lookup with a possibly-missing key, mirroring `d.get(x)` where `x`
itself came from a `get` and may be `None`. -/
def dgetOpt {α : Type} (d : Dict α) (k : Option String) : Option α :=
  k.bind (dget d)

/-- A configuration item record of the report payload: `ucmdbId`, `type`
and the `properties` mapping (string → string). -/
structure CI where
  ucmdbId : Option String
  type : Option String
  properties : Dict String
deriving DecidableEq

/-- A relation record of the report payload. -/
structure Relation where
  ucmdbId : Option String
  type : Option String
  end1Id : Option String
  end2Id : Option String
deriving DecidableEq

/-- The parsed report payload: top-level `cis` and `relations` arrays
(`json.loads` output, already shaped as the integrity check expects). -/
structure JsonData where
  cis : List CI
  relations : List Relation
deriving DecidableEq

/-- An inconsistency record as built by
`validar_nit_en_relaciones_invertidas` (src/report.py lines 412-420). -/
structure Inconsistencia where
  ucmdbId : Option String
  nit_end1 : String
  nit_end2 : String
  end1Id : Option String
  end2Id : Option String
  display_label_end1 : String
  display_label_end2 : String
deriving DecidableEq

/-- An inconsistency after `enriquecer_inconsistencias_normales`
(src/processor.py).  `relacion_fo`/`ucmdbid_fo` are `none` when the keys
were never added (the record whose relation did not resolve is appended
unchanged, src/processor.py line 133). -/
structure Enriquecida where
  base : Inconsistencia
  relacion_fo : Option Bool
  ucmdbid_fo : Option String
deriving DecidableEq

/-- `config.UCMDBConfig.NIT_FIELD_END1` (src/config.py line 101). -/
def NIT_FIELD_END1 : String := "clr_onyxdb_company_nit"

/-- `config.UCMDBConfig.NIT_FIELD_END2` (src/config.py line 102). -/
def NIT_FIELD_END2 : String := "clr_onyxdb_companynit"

/-- `ExitCodes.SUCCESS` (src/config.py line 170). -/
def EXIT_SUCCESS : Nat := 0

/-- `ExitCodes.JSON_ERROR` (src/config.py line 173). -/
def EXIT_JSON_ERROR : Nat := 3

/-- Python `str.strip()`: remove leading and trailing whitespace.
Implemented by structural recursion on the character list so that
concrete instances reduce inside the kernel. -/
def String.quitarEspacios (s : String) : String :=
  String.mk (((s.toList.dropWhile Char.isWhitespace).reverse.dropWhile Char.isWhitespace).reverse)

/-- `contar_letras` (src/report.py lines 317-327): true when the string
holds at least one alphabetic character. -/
def contarLetras (s : String) : Bool :=
  s.any (fun c => c.isAlpha)

/-- The id → CI index.  Built identically at src/report.py lines 360-366
(`nodos_por_id`) and src/main.py line 89 (`cis_by_id`): entries whose
`ucmdbId` is falsy (absent/null/empty) are skipped; later entries
overwrite earlier ones.  The `_properties_cache` written at line 366 is a
verbatim copy of `properties` and is therefore not modelled separately. -/
def indexCisPorId (cis : List CI) : Dict CI :=
  cis.foldl
    (fun m obj =>
      match obj.ucmdbId with
      | some id => if id != "" then dset m id obj else m
      | none => m)
    []

/-- Loop body of `validar_nit_en_relaciones_invertidas`
(src/report.py lines 384-427) for a single relation.
`none` means the relation produced no record (missing node, missing NIT,
or equal trimmed NITs); `some (p, inc)` means record `inc` was filed,
in the particular list when `p = true`, in the normal list otherwise. -/
def pasoValidar (nodos : Dict CI) (rel : Relation) : Option (Bool × Inconsistencia) :=
  match dgetOpt nodos rel.end1Id, dgetOpt nodos rel.end2Id with
  | some n1, some n2 =>
    match dget n1.properties NIT_FIELD_END1, dget n2.properties NIT_FIELD_END2 with
    | some nit1, some nit2 =>
      let t1 := nit1.quitarEspacios
      let t2 := nit2.quitarEspacios
      if t1 != t2 then
        some (contarLetras t1 || contarLetras t2,
          { ucmdbId := rel.ucmdbId
            nit_end1 := t1
            nit_end2 := t2
            end1Id := rel.end1Id
            end2Id := rel.end2Id
            display_label_end1 := (dget n1.properties "display_label").getD "N/A"
            display_label_end2 := (dget n2.properties "display_label").getD "N/A" })
      else none
    | _, _ => none
  | _, _ => none

/-- Accumulation of one relation's outcome onto the two output lists
(the two `append` calls at src/report.py lines 422-425). -/
def acumularValidar (nodos : Dict CI)
    (acc : List Inconsistencia × List Inconsistencia) (rel : Relation) :
    List Inconsistencia × List Inconsistencia :=
  match pasoValidar nodos rel with
  | some (true, inc) => (acc.1, acc.2 ++ [inc])
  | some (false, inc) => (acc.1 ++ [inc], acc.2)
  | none => acc

/-- `validar_nit_en_relaciones_invertidas` (src/report.py lines 330-438):
returns `(inconsistencias_normales, inconsistencias_particulares)`.
The early return at line 355 fires when either array is empty. -/
def validarNit (cis : List CI) (relaciones : List Relation) :
    List Inconsistencia × List Inconsistencia :=
  if cis.isEmpty || relaciones.isEmpty then ([], [])
  else relaciones.foldl (acumularValidar (indexCisPorId cis)) ([], [])

/-- Projection used to characterise `validarNit`: the record relation
`rel` contributes to the normal list, if any. -/
def extraerNormal (nodos : Dict CI) (rel : Relation) : Option Inconsistencia :=
  match pasoValidar nodos rel with
  | some (false, inc) => some inc
  | _ => none

/-- Projection used to characterise `validarNit`: the record relation
`rel` contributes to the particular list, if any. -/
def extraerParticular (nodos : Dict CI) (rel : Relation) : Option Inconsistencia :=
  match pasoValidar nodos rel with
  | some (true, inc) => some inc
  | _ => none

/-- `tipos_fo_validos` (src/processor.py lines 149-154): the fixed
whitelist of foreign-object CI types. -/
def tiposFoValidos : List String :=
  ["clr_service_catalog_fo_e",
   "clr_service_catalog_fo_n",
   "clr_service_catalog_fo_p",
   "clr_service_catalog_fo_cloud"]

/-- The id → relation index `relations_by_id`
(src/processor.py line 123 and src/main.py line 84): entries with a
falsy `ucmdbId` are skipped, later entries overwrite earlier ones. -/
def relationsById (relations : List Relation) : Dict Relation :=
  relations.foldl
    (fun m rel =>
      match rel.ucmdbId with
      | some id => if id != "" then dset m id rel else m
      | none => m)
    []

/-- `containment_by_end2` (src/main.py lines 85-88): index over relations
of type `containment` keyed by their (truthy) `end2Id`. -/
def containmentByEnd2 (relations : List Relation) : Dict Relation :=
  relations.foldl
    (fun m rel =>
      match rel.type with
      | some t =>
        if t == "containment" then
          match rel.end2Id with
          | some e2 => if e2 != "" then dset m e2 rel else m
          | none => m
        else m
      | none => m)
    []

/-- Loop body of `enriquecer_inconsistencias_normales`
(src/processor.py lines 126-165) for a single inconsistency record.
When the record's relation id does not resolve in `relations_by_id` the
record is appended unchanged — without the `relacion_fo`/`ucmdbid_fo`
keys (lines 130-134).  Otherwise the containment relation for the
resolved relation's `end2Id` is looked up and, when its `end1Id` CI has
a whitelisted type, `relacion_fo = true` and `ucmdbid_fo` becomes the
containment relation's own id (`"N/A"` when that id is absent,
line 158). -/
def enriquecerItem (relsById : Dict Relation) (contByEnd2 : Dict Relation)
    (cisById : Dict CI) (item : Inconsistencia) : Enriquecida :=
  match dgetOpt relsById item.ucmdbId with
  | none => ⟨item, none, none⟩
  | some relOriginal =>
    let fo :=
      match dgetOpt contByEnd2 relOriginal.end2Id with
      | none => (false, "N/A")
      | some containmentRel =>
        match dgetOpt cisById containmentRel.end1Id with
        | some ciNode =>
          match ciNode.type with
          | some t =>
            if tiposFoValidos.contains t then
              (true, containmentRel.ucmdbId.getD "N/A")
            else (false, "N/A")
          | none => (false, "N/A")
        | none => (false, "N/A")
    ⟨item, some fo.1, some fo.2⟩

/-- `enriquecer_inconsistencias_normales` (src/processor.py
lines 99-168): appends one output record per input record. -/
def enriquecerInconsistenciasNormales (incs : List Inconsistencia)
    (relations : List Relation) (contByEnd2 : Dict Relation)
    (cisById : Dict CI) : List Enriquecida :=
  incs.foldl
    (fun acc item => acc ++ [enriquecerItem (relationsById relations) contByEnd2 cisById item])
    []

/-- `validar_integridad_json` (src/processor.py lines 233-272) on a
payload that already parsed into the expected shape (the `isinstance`
branches are unrepresentable in the typed embedding and always pass):
fails exactly when `cis` or `relations` is empty.  The trailing
"last element truncated" probe only logs a warning and never changes
the result. -/
def validarIntegridadJson (d : JsonData) : Bool :=
  if d.cis.length = 0 then false
  else if d.relations.length = 0 then false
  else true

/-- The left-brace character (written numerically throughout). -/
def llaveAbre : Char := Char.ofNat 123

/-- The right-brace character. -/
def llaveCierra : Char := Char.ofNat 125

/-- The left-bracket character. -/
def corcheteAbre : Char := '['

/-- The right-bracket character. -/
def corcheteCierra : Char := ']'

/-- `empiezaCon pat s` is true when `pat` is an initial segment of `s`
(Python substring match at a fixed offset). -/
def empiezaCon : List Char → List Char → Bool
  | [], _ => true
  | _ :: _, [] => false
  | p :: ps, c :: cs => p == c && empiezaCon ps cs

/-- Descending scan for `rfind`: the largest index `≤ i` at which `pat`
occurs in `s`, as an `Int`, `-1` when there is none. -/
def rfindDesde (s pat : List Char) : Nat → Int
  | 0 => if empiezaCon pat s then 0 else -1
  | i + 1 => if empiezaCon pat (s.drop (i + 1)) then ((i + 1 : Nat) : Int) else rfindDesde s pat i

/-- Python `s.rfind(pat)`: highest index of an occurrence of `pat` in
`s`, `-1` when absent (`pat` nonempty throughout this file). -/
def rfind (s pat : List Char) : Int :=
  rfindDesde s pat s.length

/-- Python `s.rstrip(', ')` (src/report.py line 180): drop trailing
commas and spaces. -/
def rstripComaEspacio (s : List Char) : List Char :=
  (s.reverse.dropWhile (fun c => c == ',' || c == ' ')).reverse

/-- The truncated-JSON repair of `consultar_reporte_ucmdb`
(src/report.py lines 163-199), on the decoded character sequence:
truncate at the right-most `},` or `],` occurrence found at a positive
index (preferring the later one; when neither occurs, truncate after the
last `}` at a positive index), strip trailing `,`/` `, require at least
one `{` and one `[` (otherwise `ValueError`, modelled as `none`), and
append `]`/`}` closers to rebalance the character counts (Python's
negative string repetition yields the empty string, matching `Nat`
subtraction). -/
def reparar (s : List Char) : Option (List Char) :=
  let p1 := rfind s [llaveCierra, ',']
  let p2 := rfind s [corcheteCierra, ',']
  let s1 :=
    if p1 > 0 && p2 > 0 then
      if p1 ≥ p2 then s.take (p1.toNat + 2) else s.take (p2.toNat + 2)
    else if p1 > 0 then s.take (p1.toNat + 2)
    else if p2 > 0 then s.take (p2.toNat + 2)
    else
      let pc := rfind s [llaveCierra]
      if pc > 0 then s.take (pc.toNat + 1) else s
  let s2 := rstripComaEspacio s1
  let abreCorchetes := s2.count corcheteAbre
  let cierraCorchetes := s2.count corcheteCierra
  let abreLlaves := s2.count llaveAbre
  let cierraLlaves := s2.count llaveCierra
  if abreLlaves = 0 || abreCorchetes = 0 then none
  else
    some (s2 ++ List.replicate (abreCorchetes - cierraCorchetes) corcheteCierra
             ++ List.replicate (abreLlaves - cierraLlaves) llaveCierra)

/-- The minimum received size for attempting recovery,
`100 * 1024 * 1024` bytes (src/report.py line 160). -/
def UMBRAL_RECUPERACION : Nat := 100 * 1024 * 1024

/-- The interrupted-download handler of `consultar_reporte_ucmdb`
(src/report.py lines 159-210), taking the buffered content and the byte
counter at the moment the stream broke.  When enough data arrived, the
repair of lines 163-199 is computed into the local `contenido`
(falling back to the unrepaired buffer when the repair raises, caught at
line 200) — but line 207 then re-reads `buffer.getvalue()` into
`contenido`, and line 210 returns that, so the repaired text is
discarded.  The shadowing `let` below mirrors line 207 verbatim. -/
def manejarInterrupcion (buffer : List Char) (bytesRecibidos : Nat) :
    Except String (List Char) :=
  if buffer != [] && decide (bytesRecibidos > UMBRAL_RECUPERACION) then
    let contenido := (reparar buffer).getD buffer
    let contenido := buffer
    Except.ok contenido
  else
    Except.error "Descarga interrumpida sin datos suficientes"

/-- Outcome of one HTTP attempt, as distinguished by the `except`
clauses of `ejecutar_delete_ucmdb` / `ejecutar_update_itsm`:
a status code, a `requests` timeout, a connection error, or any other
exception. -/
inductive Intento where
  | status (code : Nat)
  | timeout
  | connError (msg : String)
  | otherError (msg : String)
deriving DecidableEq

/-- Retry loop of `ejecutar_delete_ucmdb` (src/ucmdb_operations.py
lines 49-92) over the remaining attempt numbers (`resp i` is the outcome
of attempt `i`).  Success statuses are 200 and 204; 404 and any other
status outside `{500, 502, 503, 504}` fail immediately; server statuses
500/502/503/504, timeouts and connection errors retry until the attempt
counter reaches `maxReintentos` (no sleep occurs anywhere — the
`delay_reintento` parameter of the source is never read). -/
def deleteLoopUcmdb (resp : Nat → Intento) (maxReintentos : Nat) :
    List Nat → Bool × String
  | [] => (false, "Error desconocido")
  | intento :: resto =>
    match resp intento with
    | .status c =>
      if c = 200 ∨ c = 204 then
        (true, "Eliminación exitosa (HTTP " ++ toString c ++ ")")
      else if c = 404 then (false, "Recurso no encontrado (HTTP 404)")
      else if c = 500 ∨ c = 502 ∨ c = 503 ∨ c = 504 then
        if intento < maxReintentos then deleteLoopUcmdb resp maxReintentos resto
        else (false, "Error servidor después de " ++ toString maxReintentos
                      ++ " intentos (" ++ toString c ++ ")")
      else (false, "Error HTTP " ++ toString c)
    | .timeout =>
      if intento = maxReintentos then (false, "Timeout agotado")
      else deleteLoopUcmdb resp maxReintentos resto
    | .connError e =>
      if intento = maxReintentos then (false, "Error de conexión: " ++ e)
      else deleteLoopUcmdb resp maxReintentos resto
    | .otherError e => (false, "Error: " ++ e)

/-- `ejecutar_delete_ucmdb` (src/ucmdb_operations.py lines 21-92):
runs the retry loop for attempts `1, …, max_reintentos` (default 3) and
returns `(éxito, mensaje)`. -/
def ejecutarDeleteUcmdb (resp : Nat → Intento) (maxReintentos : Nat) :
    Bool × String :=
  deleteLoopUcmdb resp maxReintentos (List.range' 1 maxReintentos)

/-- Retry loop of `ejecutar_update_itsm` (src/itsm_operations.py
lines 79-123); identical control flow to the delete loop, with the ITSM
message texts.  Success statuses are again only 200 and 204. -/
def updateLoopItsm (resp : Nat → Intento) (maxReintentos : Nat) :
    List Nat → Bool × String
  | [] => (false, "Error desconocido en ITSM")
  | intento :: resto =>
    match resp intento with
    | .status c =>
      if c = 200 ∨ c = 204 then
        (true, "Actualización exitosa en ITSM (HTTP " ++ toString c ++ ")")
      else if c = 404 then (false, "Relación no encontrada en ITSM (HTTP 404)")
      else if c = 500 ∨ c = 502 ∨ c = 503 ∨ c = 504 then
        if intento < maxReintentos then updateLoopItsm resp maxReintentos resto
        else (false, "Error servidor ITSM después de " ++ toString maxReintentos
                      ++ " intentos (" ++ toString c ++ ")")
      else (false, "Error HTTP " ++ toString c ++ " en ITSM")
    | .timeout =>
      if intento = maxReintentos then (false, "Timeout en ITSM agotado")
      else updateLoopItsm resp maxReintentos resto
    | .connError e =>
      if intento = maxReintentos then (false, "Error de conexión ITSM: " ++ e)
      else updateLoopItsm resp maxReintentos resto
    | .otherError e => (false, "Error ITSM: " ++ e)

/-- `ejecutar_update_itsm` (src/itsm_operations.py lines 46-123):
rejects an empty/whitespace URL up front (lines 68-70), otherwise runs
the retry loop for attempts `1, …, max_reintentos` (default 3). -/
def ejecutarUpdateItsm (url : String) (resp : Nat → Intento)
    (maxReintentos : Nat) : Bool × String :=
  if url.quitarEspacios = "" then (false, "URL vacía")
  else updateLoopItsm resp maxReintentos (List.range' 1 maxReintentos)

/-- One entry of the UCMDB `resumen` list (src/ucmdb_operations.py
lines 178-186). -/
structure ResumenUcmdb where
  numero : Nat
  ucmdbId : String
  url : String
  metodo : String
  modo : String
  estado : String
  detalles : String
deriving DecidableEq

/-- Observable state of `eliminar_en_ucmdb`: the tallies, the audit
`resumen`, and the URLs for which `ejecutar_delete_ucmdb` was invoked
(the network-mutating calls; empty in simulation). -/
structure UcmdbEstado where
  exitosas : Nat
  fallidas : Nat
  totalDeletes : Nat
  resumen : List ResumenUcmdb
  llamadas : List String
deriving DecidableEq

/-- The zero state at loop entry (src/ucmdb_operations.py
lines 143-146). -/
def estadoVacioUcmdb : UcmdbEstado := ⟨0, 0, 0, [], []⟩

/-- Loop body of `eliminar_en_ucmdb` (src/ucmdb_operations.py
lines 148-205) for one inconsistency: read `ucmdbId` (stripped),
`ucmdbid_fo` (default `"N/A"`) and `relacion_fo` (default `False`); skip
the item entirely when the stripped id is empty (line 159); otherwise
delete the primary id, plus `ucmdbid_fo` when `relacion_fo` is set and
`ucmdbid_fo ≠ "N/A"` (lines 170-172).  In execution mode every id
becomes an `ejecutar_delete_ucmdb` call and a tally update; otherwise
only a `SIMULADA` audit entry is appended. -/
def pasoEliminarUcmdb (deleteEndpoint token modo : String)
    (respuestas : String → Nat → Intento) (st : UcmdbEstado)
    (item : Enriquecida) : UcmdbEstado :=
  let _ := token
  let ucmdbid := (item.base.ucmdbId.getD "").quitarEspacios
  let ucmdbidFo := item.ucmdbid_fo.getD "N/A"
  let relacionFo := item.relacion_fo.getD false
  if ucmdbid = "" then st
  else
    let idsAEliminar :=
      if relacionFo && ucmdbidFo != "N/A" then [ucmdbid, ucmdbidFo] else [ucmdbid]
    idsAEliminar.foldl
      (fun st2 uid =>
        let url := deleteEndpoint ++ "/" ++ uid
        let numero := st2.totalDeletes + 1
        if modo == "ejecucion" then
          let r := ejecutarDeleteUcmdb (respuestas url) 3
          { exitosas := st2.exitosas + (if r.1 then 1 else 0)
            fallidas := st2.fallidas + (if r.1 then 0 else 1)
            totalDeletes := numero
            resumen := st2.resumen ++
              [⟨numero, uid, url, "DELETE", "EJECUCION",
                if r.1 then "EXITOSA" else "FALLIDA", r.2⟩]
            llamadas := st2.llamadas ++ [url] }
        else
          { st2 with
            totalDeletes := numero
            resumen := st2.resumen ++
              [⟨numero, uid, url, "DELETE", "SIMULACION", "SIMULADA", ""⟩] })
      st

/-- `eliminar_en_ucmdb` (src/ucmdb_operations.py lines 95-221).  The
guard of line 126 aborts execution mode without a token; the
empty-input early return of line 139 coincides with folding the empty
list.  The Python function returns the `resumen` list (or `None` on the
early exits); the whole observable state is returned here. -/
def eliminarEnUcmdb (deleteEndpoint token modo : String)
    (respuestas : String → Nat → Intento) (inconsistencias : List Enriquecida) :
    UcmdbEstado :=
  if modo == "ejecucion" && token == "" then estadoVacioUcmdb
  else inconsistencias.foldl (pasoEliminarUcmdb deleteEndpoint token modo respuestas)
        estadoVacioUcmdb

/-- One entry of the ITSM `resumen` list (src/itsm_operations.py
lines 199-209). -/
structure ResumenItsm where
  numero : Nat
  ucmdbId : String
  ucmdbidFo : String
  url : String
  metodo : String
  modo : String
  estado : String
  detalles : String
deriving DecidableEq

/-- Observable state of `eliminar_en_itsm`: tallies, audit entries, and
the URLs for which `ejecutar_update_itsm` was invoked. -/
structure ItsmEstado where
  exitosas : Nat
  fallidas : Nat
  resumen : List ResumenItsm
  llamadas : List String
deriving DecidableEq

/-- The zero state at loop entry (src/itsm_operations.py
lines 180-182). -/
def estadoVacioItsm : ItsmEstado := ⟨0, 0, [], []⟩

/-- The caller-side filter of src/main.py lines 123-126: keep records
whose `relacion_fo` is truthy and whose `ucmdbid_fo` differs from
`"N/A"` (an absent `ucmdbid_fo` — Python `None` — also differs from
`"N/A"`). -/
def filtroMainConFo (incs : List Enriquecida) : List Enriquecida :=
  incs.filter (fun item => item.relacion_fo == some true && item.ucmdbid_fo != some "N/A")

/-- The defensive filter `relaciones_validas` inside `eliminar_en_itsm`
(src/itsm_operations.py lines 166-170): keep records whose `ucmdbid_fo`
is truthy and differs from `"N/A"`. -/
def filtroItsmValidas (incs : List Enriquecida) : List Enriquecida :=
  incs.filter (fun item =>
    match item.ucmdbid_fo with
    | some s => s != "" && s != "N/A"
    | none => false)

/-- Loop body of `eliminar_en_itsm` (src/itsm_operations.py
lines 184-226) for one `enumerate(_, 1)` pair: skip when either stripped
id is empty (line 188); otherwise build the PUT URL and, in execution
mode, run `ejecutar_update_itsm` and tally; in simulation append a
`SIMULADA` entry only. -/
def pasoEliminarItsm (itsmBase modo : String)
    (respuestas : String → Nat → Intento) (st : ItsmEstado)
    (par : Nat × Enriquecida) : ItsmEstado :=
  let idx := par.1 + 1
  let item := par.2
  let ucmdbid := (item.base.ucmdbId.getD "").quitarEspacios
  let ucmdbidFo := (item.ucmdbid_fo.getD "").quitarEspacios
  if ucmdbid = "" || ucmdbidFo = "" then st
  else
    let url := itsmBase ++ "/cirelationship1to1s/" ++ ucmdbidFo ++ "/" ++ ucmdbid
    if modo == "ejecucion" then
      let r := ejecutarUpdateItsm url (respuestas url) 3
      { exitosas := st.exitosas + (if r.1 then 1 else 0)
        fallidas := st.fallidas + (if r.1 then 0 else 1)
        resumen := st.resumen ++
          [⟨idx, ucmdbid, ucmdbidFo, url, "PUT", "EJECUCION",
            if r.1 then "EXITOSA" else "FALLIDA", r.2⟩]
        llamadas := st.llamadas ++ [url] }
    else
      { st with
        resumen := st.resumen ++
          [⟨idx, ucmdbid, ucmdbidFo, url, "PUT", "SIMULACION", "SIMULADA", ""⟩] }

/-- `eliminar_en_itsm` (src/itsm_operations.py lines 126-237): abort
when `ITSM_BASE_URL` is unset (line 154), filter to records with a
valid `ucmdbid_fo`, then fold the enumerated loop body (the empty-list
early return of line 176 coincides with folding the empty list). -/
def eliminarEnItsm (itsmBase modo : String)
    (respuestas : String → Nat → Intento)
    (inconsistenciasConFo : List Enriquecida) : ItsmEstado :=
  if itsmBase == "" then estadoVacioItsm
  else ((filtroItsmValidas inconsistenciasConFo).enum).foldl
        (pasoEliminarItsm itsmBase modo respuestas) estadoVacioItsm

/-- Result of `procesar_reporte`: the exit code and the observable
states of both downstream orchestrators. -/
structure ProcesarResultado where
  exitCode : Nat
  ucmdb : UcmdbEstado
  itsm : ItsmEstado
deriving DecidableEq

/-- `procesar_reporte` (src/main.py lines 48-134): validate NITs,
build the indices, enrich the normal inconsistencies, run the UCMDB
deletions over all of them and the ITSM updates over the
`relacion_fo`-filtered subset, and return `ExitCodes.SUCCESS`.
(The `filtrar_cis_por_tipo_servicecodes` call of line 71 and the
particular-inconsistency enrichment of line 99 only feed logging and
report files, and are omitted; file writing is out of scope.) -/
def procesarReporte (modo token deleteEndpoint itsmBase : String)
    (respuestasUcmdb respuestasItsm : String → Nat → Intento)
    (d : JsonData) : ProcesarResultado :=
  let normales := (validarNit d.cis d.relations).1
  let contIdx := containmentByEnd2 d.relations
  let cisIdx := indexCisPorId d.cis
  let enriquecidas := enriquecerInconsistenciasNormales normales d.relations contIdx cisIdx
  let resUcmdb := eliminarEnUcmdb deleteEndpoint token modo respuestasUcmdb enriquecidas
  let conFo := filtroMainConFo enriquecidas
  let resItsm := eliminarEnItsm itsmBase modo respuestasItsm conFo
  ⟨EXIT_SUCCESS, resUcmdb, resItsm⟩

/-- The tail of `main` after the JSON parse succeeded (src/main.py
lines 243-267): when `validar_integridad_json` fails the run aborts with
`ExitCodes.JSON_ERROR` and no orchestration step runs (no delete and no
update call is issued); otherwise `procesar_reporte` runs.  Returns the
exit code and both lists of network-mutating calls. -/
def mainTrasParsear (modo token deleteEndpoint itsmBase : String)
    (respuestasUcmdb respuestasItsm : String → Nat → Intento)
    (d : JsonData) : Nat × List String × List String :=
  if validarIntegridadJson d = false then (EXIT_JSON_ERROR, [], [])
  else
    let r := procesarReporte modo token deleteEndpoint itsmBase
              respuestasUcmdb respuestasItsm d
    (r.exitCode, r.ucmdb.llamadas, r.itsm.llamadas)

/-! ## Helper lemmas -/

/-- Folding an append-one-image step is `map`. -/
lemma foldl_append_map {α β : Type} (f : α → β) :
    ∀ (l : List α) (acc : List β),
      l.foldl (fun a x => a ++ [f x]) acc = acc ++ l.map f := by
  intro l
  induction l with
  | nil => simp
  | cons x t ih => intro acc; simp [ih]

/-- The validator fold appends exactly the per-relation contributions of
`extraerNormal` / `extraerParticular`. -/
lemma validar_foldl_eq_filterMap (nodos : Dict CI) :
    ∀ (l : List Relation) (a b : List Inconsistencia),
      l.foldl (acumularValidar nodos) (a, b) =
        (a ++ l.filterMap (extraerNormal nodos),
         b ++ l.filterMap (extraerParticular nodos)) := by
  intro l
  induction l with
  | nil => simp
  | cons r t ih =>
    intro a b
    simp only [List.foldl_cons, List.filterMap_cons]
    cases h : pasoValidar nodos r with
    | none =>
      simp [acumularValidar, extraerNormal, extraerParticular, h, ih]
    | some pr =>
      obtain ⟨flag, inc⟩ := pr
      cases flag with
      | false =>
        simp [acumularValidar, extraerNormal, extraerParticular, h, ih]
      | true =>
        simp [acumularValidar, extraerNormal, extraerParticular, h, ih]

/-- A lookup in an empty dictionary fails. -/
lemma dgetOpt_nil {α : Type} (k : Option String) : dgetOpt ([] : Dict α) k = none := by
  cases k <;> simp [dgetOpt, dget]

/-- C2: for every relation whose two endpoint CIs both resolve via the
id index and whose two NIT property fields are both present, the
validator produces no record when the trimmed values are equal; when
they are unequal it produces exactly one record — into the particular
list precisely when one of the trimmed values contains an alphabetic
character, into the normal list otherwise — and the full outputs of
`validar_nit_en_relaciones_invertidas` are exactly the concatenation of
these per-relation contributions. -/
theorem nit_validation_classification
    (cis : List CI) (rels : List Relation) (rel : Relation)
    (n1 n2 : CI) (nit1 nit2 : String)
    (hmem : rel ∈ rels)
    (h1 : dgetOpt (indexCisPorId cis) rel.end1Id = some n1)
    (h2 : dgetOpt (indexCisPorId cis) rel.end2Id = some n2)
    (hn1 : dget n1.properties NIT_FIELD_END1 = some nit1)
    (hn2 : dget n2.properties NIT_FIELD_END2 = some nit2) :
    validarNit cis rels =
      (rels.filterMap (extraerNormal (indexCisPorId cis)),
       rels.filterMap (extraerParticular (indexCisPorId cis))) ∧
    (nit1.quitarEspacios = nit2.quitarEspacios → pasoValidar (indexCisPorId cis) rel = none) ∧
    (nit1.quitarEspacios ≠ nit2.quitarEspacios →
      pasoValidar (indexCisPorId cis) rel =
        some (contarLetras nit1.quitarEspacios || contarLetras nit2.quitarEspacios,
          { ucmdbId := rel.ucmdbId, nit_end1 := nit1.quitarEspacios, nit_end2 := nit2.quitarEspacios,
            end1Id := rel.end1Id, end2Id := rel.end2Id,
            display_label_end1 := (dget n1.properties "display_label").getD "N/A",
            display_label_end2 := (dget n2.properties "display_label").getD "N/A" }) ∧
      (extraerParticular (indexCisPorId cis) rel).isSome =
        (contarLetras nit1.quitarEspacios || contarLetras nit2.quitarEspacios) ∧
      (extraerNormal (indexCisPorId cis) rel).isSome =
        !(contarLetras nit1.quitarEspacios || contarLetras nit2.quitarEspacios)) := by
  have hcis : cis ≠ [] := by
    intro hnil
    rw [hnil] at h1
    simp only [indexCisPorId, List.foldl_nil] at h1
    rw [dgetOpt_nil] at h1
    exact Option.noConfusion h1
  have hrels : rels ≠ [] := List.ne_nil_of_mem hmem
  refine ⟨?_, ?_, ?_⟩
  · rw [validarNit]
    rw [if_neg]
    · rw [validar_foldl_eq_filterMap]
      simp
    · simp [List.isEmpty_iff, hcis, hrels]
  · intro heq
    simp [pasoValidar, h1, h2, hn1, hn2, heq]
  · intro hne
    have hbne : (nit1.quitarEspacios != nit2.quitarEspacios) = true := by
      simp [bne_iff_ne, hne]
    refine ⟨?_, ?_, ?_⟩
    · simp [pasoValidar, h1, h2, hn1, hn2, hbne]
    · cases hletras : contarLetras nit1.quitarEspacios || contarLetras nit2.quitarEspacios <;>
        simp [extraerParticular, pasoValidar, h1, h2, hn1, hn2, hbne, hletras]
    · cases hletras : contarLetras nit1.quitarEspacios || contarLetras nit2.quitarEspacios <;>
        simp [extraerNormal, pasoValidar, h1, h2, hn1, hn2, hbne, hletras]

/-- Endpoint CI used by the C2 witness (scenario B of the spec). -/
def ciTestigoA : CI := ⟨some "a", some "node", [("clr_onyxdb_company_nit", "900111222")]⟩

/-- Endpoint CI used by the C2 witness. -/
def ciTestigoB : CI := ⟨some "b", some "node", [("clr_onyxdb_companynit", "900999888")]⟩

/-- Relation used by the C2 witness. -/
def relTestigo : Relation := ⟨some "rel1", some "usage", some "a", some "b"⟩

/-- Witness for C2 at a concrete payload: both endpoints resolve, the
NITs `900111222` / `900999888` differ after trimming, and the relation
files exactly one normal (letter-free) inconsistency. -/
theorem nit_validation_classification_witness :
    relTestigo ∈ [relTestigo] ∧
    dgetOpt (indexCisPorId [ciTestigoA, ciTestigoB]) relTestigo.end1Id = some ciTestigoA ∧
    dgetOpt (indexCisPorId [ciTestigoA, ciTestigoB]) relTestigo.end2Id = some ciTestigoB ∧
    dget ciTestigoA.properties NIT_FIELD_END1 = some "900111222" ∧
    dget ciTestigoB.properties NIT_FIELD_END2 = some "900999888" ∧
    (validarNit [ciTestigoA, ciTestigoB] [relTestigo] =
      ([relTestigo].filterMap (extraerNormal (indexCisPorId [ciTestigoA, ciTestigoB])),
       [relTestigo].filterMap (extraerParticular (indexCisPorId [ciTestigoA, ciTestigoB]))) ∧
     (("900111222" : String).quitarEspacios = ("900999888" : String).quitarEspacios →
        pasoValidar (indexCisPorId [ciTestigoA, ciTestigoB]) relTestigo = none) ∧
     (("900111222" : String).quitarEspacios ≠ ("900999888" : String).quitarEspacios →
        pasoValidar (indexCisPorId [ciTestigoA, ciTestigoB]) relTestigo =
          some (contarLetras ("900111222" : String).quitarEspacios || contarLetras ("900999888" : String).quitarEspacios,
            { ucmdbId := relTestigo.ucmdbId,
              nit_end1 := ("900111222" : String).quitarEspacios,
              nit_end2 := ("900999888" : String).quitarEspacios,
              end1Id := relTestigo.end1Id, end2Id := relTestigo.end2Id,
              display_label_end1 := (dget ciTestigoA.properties "display_label").getD "N/A",
              display_label_end2 := (dget ciTestigoB.properties "display_label").getD "N/A" }) ∧
        (extraerParticular (indexCisPorId [ciTestigoA, ciTestigoB]) relTestigo).isSome =
          (contarLetras ("900111222" : String).quitarEspacios || contarLetras ("900999888" : String).quitarEspacios) ∧
        (extraerNormal (indexCisPorId [ciTestigoA, ciTestigoB]) relTestigo).isSome =
          !(contarLetras ("900111222" : String).quitarEspacios || contarLetras ("900999888" : String).quitarEspacios))) :=
  ⟨by decide, by decide, by decide, by decide, by decide,
   nit_validation_classification [ciTestigoA, ciTestigoB] [relTestigo] relTestigo
     ciTestigoA ciTestigoB "900111222" "900999888"
     (by decide) (by decide) (by decide) (by decide) (by decide)⟩

/-- Inconsistency record whose relation id resolves to no relation
(used by the C4 counterexample and witness). -/
def incSinRelacion : Inconsistencia :=
  ⟨some "r1", "100", "200", some "a", some "b", "N/A", "N/A"⟩

/-- Counterexample to C4 as stated: a record whose `relationId` does
not resolve in the relation index is NOT dropped by
`enriquecer_inconsistencias_normales` — it is retained in the output
(without the enrichment keys), so the output contains a record whose
relation id resolves to nothing. -/
theorem enrichment_drops_unresolved_counterexample :
    enriquecerInconsistenciasNormales [incSinRelacion] [] [] [] =
      [⟨incSinRelacion, none, none⟩] ∧
    dgetOpt (relationsById []) incSinRelacion.ucmdbId = none ∧
    enriquecerInconsistenciasNormales [incSinRelacion] [] [] [] ≠ [] := by
  refine ⟨by decide, by decide, by decide⟩

/-- C4 amended: a record whose `relationId` does not resolve is
retained unchanged (with no `relacion_fo`/`ucmdbid_fo` keys) rather
than dropped; enrichment maps every input record to exactly one output
record and preserves the record count. -/
theorem enrichment_retains_unresolved
    (incs : List Inconsistencia) (rels : List Relation)
    (cont : Dict Relation) (cis : Dict CI) (item : Inconsistencia)
    (hmem : item ∈ incs)
    (hnores : dgetOpt (relationsById rels) item.ucmdbId = none) :
    enriquecerInconsistenciasNormales incs rels cont cis =
      incs.map (enriquecerItem (relationsById rels) cont cis) ∧
    enriquecerItem (relationsById rels) cont cis item = ⟨item, none, none⟩ ∧
    (⟨item, none, none⟩ : Enriquecida) ∈ enriquecerInconsistenciasNormales incs rels cont cis ∧
    (enriquecerInconsistenciasNormales incs rels cont cis).length = incs.length := by
  have hmap : enriquecerInconsistenciasNormales incs rels cont cis =
      incs.map (enriquecerItem (relationsById rels) cont cis) := by
    rw [enriquecerInconsistenciasNormales, foldl_append_map]
    simp
  have hitem : enriquecerItem (relationsById rels) cont cis item = ⟨item, none, none⟩ := by
    simp [enriquecerItem, hnores]
  refine ⟨hmap, hitem, ?_, ?_⟩
  · rw [hmap]
    exact hitem ▸ List.mem_map_of_mem _ hmem
  · rw [hmap, List.length_map]

/-- Witness for the amended C4 at a concrete input. -/
theorem enrichment_retains_unresolved_witness :
    incSinRelacion ∈ [incSinRelacion] ∧
    dgetOpt (relationsById []) incSinRelacion.ucmdbId = none ∧
    (enriquecerInconsistenciasNormales [incSinRelacion] [] [] [] =
      [incSinRelacion].map (enriquecerItem (relationsById []) [] []) ∧
     enriquecerItem (relationsById []) [] [] incSinRelacion = ⟨incSinRelacion, none, none⟩ ∧
     (⟨incSinRelacion, none, none⟩ : Enriquecida) ∈
       enriquecerInconsistenciasNormales [incSinRelacion] [] [] [] ∧
     (enriquecerInconsistenciasNormales [incSinRelacion] [] [] []).length =
       ([incSinRelacion] : List Inconsistencia).length) :=
  ⟨by decide, by decide,
   enrichment_retains_unresolved [incSinRelacion] [] [] [] incSinRelacion
     (by decide) (by decide)⟩

/-- C5: for a normal inconsistency whose relation resolves (and whose
recorded `end2Id` is the resolved relation's `end2Id`, as the validator
guarantees), `relacion_fo` is `true` exactly when the containment index
holds a relation for that `end2Id` whose `end1Id` resolves to a CI of a
whitelisted foreign-object type; in that case `ucmdbid_fo` is the
containment relation's own id, and in every other case `relacion_fo` is
`false` and `ucmdbid_fo` is the absent-marker `"N/A"`. -/
theorem fo_resolution
    (incs : List Inconsistencia) (rels : List Relation)
    (cont : Dict Relation) (cis : Dict CI) (item : Inconsistencia) (rel : Relation)
    (hres : dgetOpt (relationsById rels) item.ucmdbId = some rel)
    (hend2 : rel.end2Id = item.end2Id) :
    (enriquecerItem (relationsById rels) cont cis item).base = item ∧
    ((enriquecerItem (relationsById rels) cont cis item).relacion_fo = some true ↔
      ∃ crel ci t, dgetOpt cont item.end2Id = some crel ∧
        dgetOpt cis crel.end1Id = some ci ∧ ci.type = some t ∧
        t ∈ tiposFoValidos) ∧
    (∀ crel cid ci t, dgetOpt cont item.end2Id = some crel →
      crel.ucmdbId = some cid → dgetOpt cis crel.end1Id = some ci →
      ci.type = some t → t ∈ tiposFoValidos →
      (enriquecerItem (relationsById rels) cont cis item).ucmdbid_fo = some cid) ∧
    (¬(∃ crel ci t, dgetOpt cont item.end2Id = some crel ∧
        dgetOpt cis crel.end1Id = some ci ∧ ci.type = some t ∧
        t ∈ tiposFoValidos) →
      (enriquecerItem (relationsById rels) cont cis item).relacion_fo = some false ∧
      (enriquecerItem (relationsById rels) cont cis item).ucmdbid_fo = some "N/A") ∧
    enriquecerInconsistenciasNormales incs rels cont cis =
      incs.map (enriquecerItem (relationsById rels) cont cis) := by
  have hmap : enriquecerInconsistenciasNormales incs rels cont cis =
      incs.map (enriquecerItem (relationsById rels) cont cis) := by
    rw [enriquecerInconsistenciasNormales, foldl_append_map]
    simp
  rcases hcont : dgetOpt cont item.end2Id with _ | crel
  · have he : enriquecerItem (relationsById rels) cont cis item =
        ⟨item, some false, some "N/A"⟩ := by
      simp [enriquecerItem, hres, hend2, hcont]
    refine ⟨by rw [he], ?_, ?_, fun _ => by rw [he]; exact ⟨rfl, rfl⟩, hmap⟩
    · rw [he]
      constructor
      · intro h
        exact absurd h (by simp)
      · rintro ⟨crel, ci, t, hc, -, -, -⟩
        exact absurd hc (by simp)
    · intro crel cid ci t hc
      exact absurd hc (by simp)
  · rcases hci : dgetOpt cis crel.end1Id with _ | ciNode
    · have he : enriquecerItem (relationsById rels) cont cis item =
          ⟨item, some false, some "N/A"⟩ := by
        simp [enriquecerItem, hres, hend2, hcont, hci]
      refine ⟨by rw [he], ?_, ?_, fun _ => by rw [he]; exact ⟨rfl, rfl⟩, hmap⟩
      · rw [he]
        constructor
        · intro h
          exact absurd h (by simp)
        · rintro ⟨crel', ci, t, hc, hc2, -, -⟩
          injection hc with hceq
          subst hceq
          rw [hci] at hc2
          exact absurd hc2 (by simp)
      · intro crel' cid ci t hc hcid hc2
        injection hc with hceq
        subst hceq
        rw [hci] at hc2
        exact absurd hc2 (by simp)
    · rcases htipo : ciNode.type with _ | t
      · have he : enriquecerItem (relationsById rels) cont cis item =
            ⟨item, some false, some "N/A"⟩ := by
          simp [enriquecerItem, hres, hend2, hcont, hci, htipo]
        refine ⟨by rw [he], ?_, ?_, fun _ => by rw [he]; exact ⟨rfl, rfl⟩, hmap⟩
        · rw [he]
          constructor
          · intro h
            exact absurd h (by simp)
          · rintro ⟨crel', ci, t, hc, hc2, ht, -⟩
            injection hc with hceq
            subst hceq
            rw [hci] at hc2
            injection hc2 with hc2eq
            subst hc2eq
            rw [htipo] at ht
            exact absurd ht (by simp)
        · intro crel' cid ci t hc hcid hc2 ht
          injection hc with hceq
          subst hceq
          rw [hci] at hc2
          injection hc2 with hc2eq
          subst hc2eq
          rw [htipo] at ht
          exact absurd ht (by simp)
      · by_cases hlista : t ∈ tiposFoValidos
        · have he : enriquecerItem (relationsById rels) cont cis item =
              ⟨item, some true, some (crel.ucmdbId.getD "N/A")⟩ := by
            simp [enriquecerItem, hres, hend2, hcont, hci, htipo, hlista]
          refine ⟨by rw [he], ?_, ?_, ?_, hmap⟩
          · rw [he]
            exact ⟨fun _ => ⟨crel, ciNode, t, rfl, hci, htipo, hlista⟩, fun _ => rfl⟩
          · intro crel' cid ci t' hc hcid hc2 ht hl
            injection hc with hceq
            subst hceq
            rw [he, hcid]
            rfl
          · intro hno
            exact absurd ⟨crel, ciNode, t, rfl, hci, htipo, hlista⟩ hno
        · have he : enriquecerItem (relationsById rels) cont cis item =
              ⟨item, some false, some "N/A"⟩ := by
            simp [enriquecerItem, hres, hend2, hcont, hci, htipo, hlista]
          refine ⟨by rw [he], ?_, ?_, fun _ => by rw [he]; exact ⟨rfl, rfl⟩, hmap⟩
          · rw [he]
            constructor
            · intro h
              exact absurd h (by simp)
            · rintro ⟨crel', ci, t', hc, hc2, ht, hl⟩
              injection hc with hceq
              subst hceq
              rw [hci] at hc2
              injection hc2 with hc2eq
              subst hc2eq
              rw [htipo] at ht
              injection ht with hteq
              subst hteq
              exact absurd hl hlista
          · intro crel' cid ci t' hc hcid hc2 ht hl
            injection hc with hceq
            subst hceq
            rw [hci] at hc2
            injection hc2 with hc2eq
            subst hc2eq
            rw [htipo] at ht
            injection ht with hteq
            subst hteq
            exact absurd hl hlista

/-- Containment relation used by the C5 witness. -/
def contRelTestigo : Relation := ⟨some "c1", some "containment", some "f1", some "b"⟩

/-- Foreign-object CI used by the C5 witness. -/
def ciFoTestigo : CI := ⟨some "f1", some "clr_service_catalog_fo_e", []⟩

/-- Normal inconsistency used by the C5 witness. -/
def incTestigoFo : Inconsistencia :=
  ⟨some "rel1", "100", "200", some "a", some "b", "N/A", "N/A"⟩

/-- Witness for C5 at a concrete graph: the relation resolves, a
containment relation with a whitelisted FO CI exists, and the record is
enriched with `relacion_fo = true` and the containment relation's id. -/
theorem fo_resolution_witness :
    dgetOpt (relationsById [relTestigo, contRelTestigo]) incTestigoFo.ucmdbId = some relTestigo ∧
    relTestigo.end2Id = incTestigoFo.end2Id ∧
    ((enriquecerItem (relationsById [relTestigo, contRelTestigo])
        (containmentByEnd2 [relTestigo, contRelTestigo])
        (indexCisPorId [ciFoTestigo]) incTestigoFo).base = incTestigoFo ∧
     ((enriquecerItem (relationsById [relTestigo, contRelTestigo])
        (containmentByEnd2 [relTestigo, contRelTestigo])
        (indexCisPorId [ciFoTestigo]) incTestigoFo).relacion_fo = some true ↔
       ∃ crel ci t,
         dgetOpt (containmentByEnd2 [relTestigo, contRelTestigo]) incTestigoFo.end2Id = some crel ∧
         dgetOpt (indexCisPorId [ciFoTestigo]) crel.end1Id = some ci ∧ ci.type = some t ∧
         t ∈ tiposFoValidos) ∧
     (∀ crel cid ci t,
       dgetOpt (containmentByEnd2 [relTestigo, contRelTestigo]) incTestigoFo.end2Id = some crel →
       crel.ucmdbId = some cid →
       dgetOpt (indexCisPorId [ciFoTestigo]) crel.end1Id = some ci →
       ci.type = some t → t ∈ tiposFoValidos →
       (enriquecerItem (relationsById [relTestigo, contRelTestigo])
          (containmentByEnd2 [relTestigo, contRelTestigo])
          (indexCisPorId [ciFoTestigo]) incTestigoFo).ucmdbid_fo = some cid) ∧
     (¬(∃ crel ci t,
         dgetOpt (containmentByEnd2 [relTestigo, contRelTestigo]) incTestigoFo.end2Id = some crel ∧
         dgetOpt (indexCisPorId [ciFoTestigo]) crel.end1Id = some ci ∧ ci.type = some t ∧
         t ∈ tiposFoValidos) →
       (enriquecerItem (relationsById [relTestigo, contRelTestigo])
          (containmentByEnd2 [relTestigo, contRelTestigo])
          (indexCisPorId [ciFoTestigo]) incTestigoFo).relacion_fo = some false ∧
       (enriquecerItem (relationsById [relTestigo, contRelTestigo])
          (containmentByEnd2 [relTestigo, contRelTestigo])
          (indexCisPorId [ciFoTestigo]) incTestigoFo).ucmdbid_fo = some "N/A") ∧
     enriquecerInconsistenciasNormales [incTestigoFo] [relTestigo, contRelTestigo]
        (containmentByEnd2 [relTestigo, contRelTestigo]) (indexCisPorId [ciFoTestigo]) =
       [incTestigoFo].map (enriquecerItem (relationsById [relTestigo, contRelTestigo])
          (containmentByEnd2 [relTestigo, contRelTestigo]) (indexCisPorId [ciFoTestigo]))) :=
  ⟨by decide, by decide,
   fo_resolution [incTestigoFo] [relTestigo, contRelTestigo]
     (containmentByEnd2 [relTestigo, contRelTestigo]) (indexCisPorId [ciFoTestigo])
     incTestigoFo relTestigo (by decide) (by decide)⟩

/-- C9: an empty `cis` or `relations` array makes
`validar_integridad_json` fail and the run abort with
`ExitCodes.JSON_ERROR = 3`, issuing no delete and no update call — the
empty-but-well-formed export is fatal, not zero inconsistencies. -/
theorem empty_payload_aborts
    (modo token deleteEndpoint itsmBase : String)
    (respuestasUcmdb respuestasItsm : String → Nat → Intento) (d : JsonData)
    (h : d.cis = [] ∨ d.relations = []) :
    validarIntegridadJson d = false ∧
    mainTrasParsear modo token deleteEndpoint itsmBase respuestasUcmdb respuestasItsm d =
      (EXIT_JSON_ERROR, [], []) ∧
    EXIT_JSON_ERROR = 3 := by
  have hv : validarIntegridadJson d = false := by
    rcases h with h | h <;> simp [validarIntegridadJson, h]
  exact ⟨hv, by simp [mainTrasParsear, hv], rfl⟩

/-- Witness for C9 at the empty payload. -/
theorem empty_payload_aborts_witness :
    ((⟨[], []⟩ : JsonData).cis = [] ∨ (⟨[], []⟩ : JsonData).relations = []) ∧
    (validarIntegridadJson ⟨[], []⟩ = false ∧
     mainTrasParsear "simulacion" "" "E" "B" (fun _ _ => Intento.status 200)
        (fun _ _ => Intento.status 200) ⟨[], []⟩ = (EXIT_JSON_ERROR, [], []) ∧
     EXIT_JSON_ERROR = 3) :=
  ⟨Or.inl rfl,
   empty_payload_aborts "simulacion" "" "E" "B" (fun _ _ => Intento.status 200)
     (fun _ _ => Intento.status 200) ⟨[], []⟩ (Or.inl rfl)⟩

/-- C10: an inconsistency whose primary relation id strips to the empty
string is skipped whole by the UCMDB deletion loop: no
`ejecutar_delete_ucmdb` call, no audit entry, no tally change, and no
URL is ever built from it; removing such an item from the input leaves
the whole observable outcome of `eliminar_en_ucmdb` unchanged. -/
theorem empty_id_skipped
    (deleteEndpoint token modo : String) (respuestas : String → Nat → Intento)
    (st : UcmdbEstado) (item : Enriquecida)
    (hvacio : (item.base.ucmdbId.getD "").quitarEspacios = "") :
    pasoEliminarUcmdb deleteEndpoint token modo respuestas st item = st ∧
    ∀ xs ys,
      eliminarEnUcmdb deleteEndpoint token modo respuestas (xs ++ item :: ys) =
        eliminarEnUcmdb deleteEndpoint token modo respuestas (xs ++ ys) := by
  have hp : ∀ st', pasoEliminarUcmdb deleteEndpoint token modo respuestas st' item = st' := by
    intro st'
    simp [pasoEliminarUcmdb, hvacio]
  refine ⟨hp st, ?_⟩
  intro xs ys
  rw [eliminarEnUcmdb, eliminarEnUcmdb]
  split
  · rfl
  · simp only [List.foldl_append, List.foldl_cons, hp]

/-- Enriched item with a whitespace-only primary id, used by the C10
witness. -/
def itemIdBlanco : Enriquecida :=
  ⟨⟨some "   ", "100", "200", some "a", some "b", "N/A", "N/A"⟩, some true, some "c1"⟩

/-- Witness for C10 at a concrete whitespace-id item. -/
theorem empty_id_skipped_witness :
    (itemIdBlanco.base.ucmdbId.getD "").quitarEspacios = "" ∧
    (pasoEliminarUcmdb "E" "tok" "ejecucion" (fun _ _ => Intento.status 200)
        estadoVacioUcmdb itemIdBlanco = estadoVacioUcmdb ∧
     ∀ xs ys,
       eliminarEnUcmdb "E" "tok" "ejecucion" (fun _ _ => Intento.status 200) (xs ++ itemIdBlanco :: ys) =
         eliminarEnUcmdb "E" "tok" "ejecucion" (fun _ _ => Intento.status 200) (xs ++ ys)) :=
  ⟨by decide,
   empty_id_skipped "E" "tok" "ejecucion" (fun _ _ => Intento.status 200)
     estadoVacioUcmdb itemIdBlanco (by decide)⟩

/-- The attempt outcomes the retry loops treat as retryable: the server
statuses 500/502/503/504, timeouts and connection errors
(src/ucmdb_operations.py lines 66-86, src/itsm_operations.py
lines 97-117). -/
def esReintentable : Intento → Bool
  | .status c => c == 500 || c == 502 || c == 503 || c == 504
  | .timeout => true
  | .connError _ => true
  | .otherError _ => false

/-- The terminal failure message of `ejecutar_delete_ucmdb` after the
last attempt, per kind of last outcome. -/
def mensajeTerminalUcmdb (maxReintentos : Nat) : Intento → String
  | .status c => "Error servidor después de " ++ toString maxReintentos
                  ++ " intentos (" ++ toString c ++ ")"
  | .timeout => "Timeout agotado"
  | .connError e => "Error de conexión: " ++ e
  | .otherError e => "Error: " ++ e

/-- The terminal failure message of `ejecutar_update_itsm` after the
last attempt, per kind of last outcome. -/
def mensajeTerminalItsm (maxReintentos : Nat) : Intento → String
  | .status c => "Error servidor ITSM después de " ++ toString maxReintentos
                  ++ " intentos (" ++ toString c ++ ")"
  | .timeout => "Timeout en ITSM agotado"
  | .connError e => "Error de conexión ITSM: " ++ e
  | .otherError e => "Error ITSM: " ++ e

/-- A first-attempt status outside the success and retryable sets makes
the delete loop fail immediately, whatever attempts would remain. -/
lemma deleteLoop_head_fallo (resp : Nat → Intento) (maxR : Nat) (l : List Nat) (c : Nat)
    (h1 : resp 1 = .status c) (hs : ¬(c = 200 ∨ c = 204))
    (hr : ¬(c = 500 ∨ c = 502 ∨ c = 503 ∨ c = 504)) :
    deleteLoopUcmdb resp maxR (1 :: l) =
      (false, if c = 404 then "Recurso no encontrado (HTTP 404)"
              else "Error HTTP " ++ toString c) := by
  simp only [deleteLoopUcmdb, h1]
  rw [if_neg hs]
  by_cases h404 : c = 404
  · simp [h404]
  · simp only [if_neg h404, if_neg hr]

/-- A first-attempt status outside the success and retryable sets makes
the update loop fail immediately. -/
lemma updateLoop_head_fallo (resp : Nat → Intento) (maxR : Nat) (l : List Nat) (c : Nat)
    (h1 : resp 1 = .status c) (hs : ¬(c = 200 ∨ c = 204))
    (hr : ¬(c = 500 ∨ c = 502 ∨ c = 503 ∨ c = 504)) :
    updateLoopItsm resp maxR (1 :: l) =
      (false, if c = 404 then "Relación no encontrada en ITSM (HTTP 404)"
              else "Error HTTP " ++ toString c ++ " en ITSM") := by
  simp only [updateLoopItsm, h1]
  rw [if_neg hs]
  by_cases h404 : c = 404
  · simp [h404]
  · simp only [if_neg h404, if_neg hr]

/-- When every attempt in `k, …, maxR` is retryable, the delete loop
consumes them all and returns the terminal message of the last one. -/
lemma deleteLoop_reintentables (resp : Nat → Intento) (maxR : Nat) :
    ∀ n k, 1 ≤ k → k + n = maxR →
      (∀ i, k ≤ i → i ≤ maxR → esReintentable (resp i) = true) →
      deleteLoopUcmdb resp maxR (List.range' k (n + 1)) =
        (false, mensajeTerminalUcmdb maxR (resp maxR)) := by
  intro n
  induction n with
  | zero =>
    intro k hk1 hkmax hret
    have hk : k = maxR := by omega
    subst hk
    have h := hret k (le_refl k) (le_refl k)
    rcases hout : resp k with c | _ | e | e
    · rw [hout] at h
      simp only [esReintentable] at h
      have hc : c = 500 ∨ c = 502 ∨ c = 503 ∨ c = 504 := by
        simp only [Bool.or_eq_true, beq_iff_eq] at h
        omega
      simp only [List.range', deleteLoopUcmdb, hout]
      rw [if_neg (by omega), if_neg (by omega), if_pos hc, if_neg (lt_irrefl k)]
      rfl
    · simp [List.range', deleteLoopUcmdb, hout, mensajeTerminalUcmdb]
    · simp [List.range', deleteLoopUcmdb, hout, mensajeTerminalUcmdb]
    · rw [hout] at h
      simp [esReintentable] at h
  | succ n ih =>
    intro k hk1 hkmax hret
    have hklt : k < maxR := by omega
    have h := hret k (le_refl k) (le_of_lt hklt)
    have hrec : deleteLoopUcmdb resp maxR (List.range' (k + 1) (n + 1)) =
        (false, mensajeTerminalUcmdb maxR (resp maxR)) := by
      exact ih (k + 1) (by omega) (by omega)
        (fun i hi1 hi2 => hret i (by omega) hi2)
    have hdesp : List.range' k (n + 2) = k :: List.range' (k + 1) (n + 1) := by
      simp [List.range'_succ]
    rw [hdesp]
    rcases hout : resp k with c | _ | e | e
    · rw [hout] at h
      simp only [esReintentable] at h
      have hc : c = 500 ∨ c = 502 ∨ c = 503 ∨ c = 504 := by
        simp only [Bool.or_eq_true, beq_iff_eq] at h
        omega
      simp only [deleteLoopUcmdb, hout]
      rw [if_neg (by omega), if_neg (by omega), if_pos hc, if_pos hklt]
      exact hrec
    · simp only [deleteLoopUcmdb, hout]
      rw [if_neg (by omega)]
      exact hrec
    · simp only [deleteLoopUcmdb, hout]
      rw [if_neg (by omega)]
      exact hrec
    · rw [hout] at h
      simp [esReintentable] at h

/-- When every attempt in `k, …, maxR` is retryable, the update loop
consumes them all and returns the terminal message of the last one. -/
lemma updateLoop_reintentables (resp : Nat → Intento) (maxR : Nat) :
    ∀ n k, 1 ≤ k → k + n = maxR →
      (∀ i, k ≤ i → i ≤ maxR → esReintentable (resp i) = true) →
      updateLoopItsm resp maxR (List.range' k (n + 1)) =
        (false, mensajeTerminalItsm maxR (resp maxR)) := by
  intro n
  induction n with
  | zero =>
    intro k hk1 hkmax hret
    have hk : k = maxR := by omega
    subst hk
    have h := hret k (le_refl k) (le_refl k)
    rcases hout : resp k with c | _ | e | e
    · rw [hout] at h
      simp only [esReintentable] at h
      have hc : c = 500 ∨ c = 502 ∨ c = 503 ∨ c = 504 := by
        simp only [Bool.or_eq_true, beq_iff_eq] at h
        omega
      simp only [List.range', updateLoopItsm, hout]
      rw [if_neg (by omega), if_neg (by omega), if_pos hc, if_neg (lt_irrefl k)]
      rfl
    · simp [List.range', updateLoopItsm, hout, mensajeTerminalItsm]
    · simp [List.range', updateLoopItsm, hout, mensajeTerminalItsm]
    · rw [hout] at h
      simp [esReintentable] at h
  | succ n ih =>
    intro k hk1 hkmax hret
    have hklt : k < maxR := by omega
    have h := hret k (le_refl k) (le_of_lt hklt)
    have hrec : updateLoopItsm resp maxR (List.range' (k + 1) (n + 1)) =
        (false, mensajeTerminalItsm maxR (resp maxR)) := by
      exact ih (k + 1) (by omega) (by omega)
        (fun i hi1 hi2 => hret i (by omega) hi2)
    have hdesp : List.range' k (n + 2) = k :: List.range' (k + 1) (n + 1) := by
      simp [List.range'_succ]
    rw [hdesp]
    rcases hout : resp k with c | _ | e | e
    · rw [hout] at h
      simp only [esReintentable] at h
      have hc : c = 500 ∨ c = 502 ∨ c = 503 ∨ c = 504 := by
        simp only [Bool.or_eq_true, beq_iff_eq] at h
        omega
      simp only [updateLoopItsm, hout]
      rw [if_neg (by omega), if_neg (by omega), if_pos hc, if_pos hklt]
      exact hrec
    · simp only [updateLoopItsm, hout]
      rw [if_neg (by omega)]
      exact hrec
    · simp only [updateLoopItsm, hout]
      rw [if_neg (by omega)]
      exact hrec
    · rw [hout] at h
      simp [esReintentable] at h

/-- Counterexample to C6 as stated: a first-attempt 501 — a 5xx status
— is NOT retried.  `ejecutar_delete_ucmdb` fails immediately with the
generic message even though the oracle would have answered 200 on the
second of the three configured attempts. -/
theorem retry_policy_counterexample :
    ejecutarDeleteUcmdb (fun i => if i = 1 then Intento.status 501 else Intento.status 200) 3 =
      (false, "Error HTTP 501") := by
  decide

/-- C6 amended: for both the delete and the update call, any status
outside the success set `{200, 204}` and the retryable set
`{500, 502, 503, 504}` — in particular every 4xx and also 5xx statuses
such as 501 — terminates on the first attempt; statuses
500/502/503/504, timeouts and connection errors are retried
back-to-back (the configured delay parameter is never used, so no sleep
separates attempts) up to `max_reintentos`, after which the terminal
failure carries the last observed error or status. -/
theorem retry_policy
    (respuestasDelete respuestasUpdate : Nat → Intento)
    (maxReintentos : Nat) (url : String)
    (hmax : 1 ≤ maxReintentos) (hurl : url.quitarEspacios ≠ "") :
    (∀ c, respuestasDelete 1 = Intento.status c → ¬(c = 200 ∨ c = 204) →
      ¬(c = 500 ∨ c = 502 ∨ c = 503 ∨ c = 504) →
      ejecutarDeleteUcmdb respuestasDelete maxReintentos =
        (false, if c = 404 then "Recurso no encontrado (HTTP 404)"
                else "Error HTTP " ++ toString c)) ∧
    ((∀ i, 1 ≤ i → i ≤ maxReintentos → esReintentable (respuestasDelete i) = true) →
      ejecutarDeleteUcmdb respuestasDelete maxReintentos =
        (false, mensajeTerminalUcmdb maxReintentos (respuestasDelete maxReintentos))) ∧
    (∀ c, respuestasUpdate 1 = Intento.status c → ¬(c = 200 ∨ c = 204) →
      ¬(c = 500 ∨ c = 502 ∨ c = 503 ∨ c = 504) →
      ejecutarUpdateItsm url respuestasUpdate maxReintentos =
        (false, if c = 404 then "Relación no encontrada en ITSM (HTTP 404)"
                else "Error HTTP " ++ toString c ++ " en ITSM")) ∧
    ((∀ i, 1 ≤ i → i ≤ maxReintentos → esReintentable (respuestasUpdate i) = true) →
      ejecutarUpdateItsm url respuestasUpdate maxReintentos =
        (false, mensajeTerminalItsm maxReintentos (respuestasUpdate maxReintentos))) := by
  cases maxReintentos with
  | zero => omega
  | succ m =>
    have hrango : List.range' 1 (m + 1) = 1 :: List.range' 2 m := by
      simp [List.range'_succ]
    refine ⟨?_, ?_, ?_, ?_⟩
    · intro c h1 hs hr
      rw [ejecutarDeleteUcmdb, hrango]
      exact deleteLoop_head_fallo _ _ _ _ h1 hs hr
    · intro hret
      rw [ejecutarDeleteUcmdb]
      exact deleteLoop_reintentables respuestasDelete (m + 1) m 1 (le_refl 1) (by omega) hret
    · intro c h1 hs hr
      rw [ejecutarUpdateItsm, if_neg hurl, hrango]
      exact updateLoop_head_fallo _ _ _ _ h1 hs hr
    · intro hret
      rw [ejecutarUpdateItsm, if_neg hurl]
      exact updateLoop_reintentables respuestasUpdate (m + 1) m 1 (le_refl 1) (by omega) hret

/-- Witness for the amended C6 at concrete oracles (all-503 deletes,
all-timeout updates, three attempts). -/
theorem retry_policy_witness :
    1 ≤ 3 ∧ ("u" : String).quitarEspacios ≠ "" ∧
    ((∀ c, (fun _ : Nat => Intento.status 503) 1 = Intento.status c → ¬(c = 200 ∨ c = 204) →
       ¬(c = 500 ∨ c = 502 ∨ c = 503 ∨ c = 504) →
       ejecutarDeleteUcmdb (fun _ => Intento.status 503) 3 =
         (false, if c = 404 then "Recurso no encontrado (HTTP 404)"
                 else "Error HTTP " ++ toString c)) ∧
     ((∀ i, 1 ≤ i → i ≤ 3 → esReintentable ((fun _ : Nat => Intento.status 503) i) = true) →
       ejecutarDeleteUcmdb (fun _ => Intento.status 503) 3 =
         (false, mensajeTerminalUcmdb 3 ((fun _ : Nat => Intento.status 503) 3))) ∧
     (∀ c, (fun _ : Nat => Intento.timeout) 1 = Intento.status c → ¬(c = 200 ∨ c = 204) →
       ¬(c = 500 ∨ c = 502 ∨ c = 503 ∨ c = 504) →
       ejecutarUpdateItsm "u" (fun _ => Intento.timeout) 3 =
         (false, if c = 404 then "Relación no encontrada en ITSM (HTTP 404)"
                 else "Error HTTP " ++ toString c ++ " en ITSM")) ∧
     ((∀ i, 1 ≤ i → i ≤ 3 → esReintentable ((fun _ : Nat => Intento.timeout) i) = true) →
       ejecutarUpdateItsm "u" (fun _ => Intento.timeout) 3 =
         (false, mensajeTerminalItsm 3 ((fun _ : Nat => Intento.timeout) 3)))) :=
  ⟨by decide, by decide,
   retry_policy (fun _ => Intento.status 503) (fun _ => Intento.timeout) 3 "u"
     (by decide) (by decide)⟩

/-- Counterexample to C7 as stated: the delete call reports FAILURE on
HTTP 202 and the update call reports FAILURE on HTTP 201, although the
claim lists both as success codes. -/
theorem success_codes_counterexample :
    ejecutarDeleteUcmdb (fun _ => Intento.status 202) 3 = (false, "Error HTTP 202") ∧
    ejecutarUpdateItsm "u" (fun _ => Intento.status 201) 3 =
      (false, "Error HTTP 201 en ITSM") :=
  ⟨by decide, by decide⟩

/-- C7 amended: both the graph-system delete and the ticketing-system
update report success exactly for HTTP statuses 200 and 204; every
other constant status (including 201, 202 and all 4xx/5xx) yields a
failure result. -/
theorem success_codes (c maxReintentos : Nat) (url : String)
    (hmax : 1 ≤ maxReintentos) (hurl : url.quitarEspacios ≠ "") :
    ((ejecutarDeleteUcmdb (fun _ => Intento.status c) maxReintentos).1 = true ↔
      (c = 200 ∨ c = 204)) ∧
    ((ejecutarUpdateItsm url (fun _ => Intento.status c) maxReintentos).1 = true ↔
      (c = 200 ∨ c = 204)) := by
  cases maxReintentos with
  | zero => omega
  | succ m =>
    have hrango : List.range' 1 (m + 1) = 1 :: List.range' 2 m := by
      simp [List.range'_succ]
    by_cases hs : c = 200 ∨ c = 204
    · have h1 : ejecutarDeleteUcmdb (fun _ => Intento.status c) (m + 1) =
          (true, "Eliminación exitosa (HTTP " ++ toString c ++ ")") := by
        rw [ejecutarDeleteUcmdb, hrango]
        simp only [deleteLoopUcmdb]
        rw [if_pos hs]
      have h2 : ejecutarUpdateItsm url (fun _ => Intento.status c) (m + 1) =
          (true, "Actualización exitosa en ITSM (HTTP " ++ toString c ++ ")") := by
        rw [ejecutarUpdateItsm, if_neg hurl, hrango]
        simp only [updateLoopItsm]
        rw [if_pos hs]
      rw [h1, h2]
      exact ⟨⟨fun _ => hs, fun _ => rfl⟩, ⟨fun _ => hs, fun _ => rfl⟩⟩
    · by_cases hr : c = 500 ∨ c = 502 ∨ c = 503 ∨ c = 504
      · have hret : ∀ i, 1 ≤ i → i ≤ m + 1 →
            esReintentable ((fun _ : Nat => Intento.status c) i) = true := by
          intro i _ _
          simp only [esReintentable, Bool.or_eq_true, beq_iff_eq]
          omega
        have h1 : ejecutarDeleteUcmdb (fun _ => Intento.status c) (m + 1) =
            (false, mensajeTerminalUcmdb (m + 1) (Intento.status c)) := by
          rw [ejecutarDeleteUcmdb]
          exact deleteLoop_reintentables _ (m + 1) m 1 (le_refl 1) (by omega) hret
        have h2 : ejecutarUpdateItsm url (fun _ => Intento.status c) (m + 1) =
            (false, mensajeTerminalItsm (m + 1) (Intento.status c)) := by
          rw [ejecutarUpdateItsm, if_neg hurl]
          exact updateLoop_reintentables _ (m + 1) m 1 (le_refl 1) (by omega) hret
        rw [h1, h2]
        exact ⟨⟨fun h => absurd h (by simp), fun h => absurd h hs⟩,
               ⟨fun h => absurd h (by simp), fun h => absurd h hs⟩⟩
      · have h1 : ejecutarDeleteUcmdb (fun _ => Intento.status c) (m + 1) =
            (false, if c = 404 then "Recurso no encontrado (HTTP 404)"
                    else "Error HTTP " ++ toString c) := by
          rw [ejecutarDeleteUcmdb, hrango]
          exact deleteLoop_head_fallo _ _ _ _ rfl hs hr
        have h2 : ejecutarUpdateItsm url (fun _ => Intento.status c) (m + 1) =
            (false, if c = 404 then "Relación no encontrada en ITSM (HTTP 404)"
                    else "Error HTTP " ++ toString c ++ " en ITSM") := by
          rw [ejecutarUpdateItsm, if_neg hurl, hrango]
          exact updateLoop_head_fallo _ _ _ _ rfl hs hr
        rw [h1, h2]
        exact ⟨⟨fun h => absurd h (by simp), fun h => absurd h hs⟩,
               ⟨fun h => absurd h (by simp), fun h => absurd h hs⟩⟩

/-- Witness for the amended C7 at status 202 (claimed a success code,
actually a failure for both calls). -/
theorem success_codes_witness :
    1 ≤ 3 ∧ ("u" : String).quitarEspacios ≠ "" ∧
    (((ejecutarDeleteUcmdb (fun _ => Intento.status 202) 3).1 = true ↔
       ((202 : Nat) = 200 ∨ (202 : Nat) = 204)) ∧
     ((ejecutarUpdateItsm "u" (fun _ => Intento.status 202) 3).1 = true ↔
       ((202 : Nat) = 200 ∨ (202 : Nat) = 204))) :=
  ⟨by decide, by decide, success_codes 202 3 "u" (by decide) (by decide)⟩

/-- The delete URLs `pasoEliminarUcmdb` issues for one item in
execution mode (derived characterisation of lines 159-201 of
src/ucmdb_operations.py): none for an empty stripped id, the primary
URL plus the FO URL when `relacion_fo` holds with a non-`"N/A"`
`ucmdbid_fo`, the primary URL alone otherwise. -/
def urlsItemUcmdb (deleteEndpoint : String) (item : Enriquecida) : List String :=
  let ucmdbid := (item.base.ucmdbId.getD "").quitarEspacios
  if ucmdbid = "" then []
  else if item.relacion_fo.getD false && item.ucmdbid_fo.getD "N/A" != "N/A" then
    [deleteEndpoint ++ "/" ++ ucmdbid,
     deleteEndpoint ++ "/" ++ item.ucmdbid_fo.getD "N/A"]
  else [deleteEndpoint ++ "/" ++ ucmdbid]

/-- The PUT URLs `pasoEliminarItsm` issues for one (already filtered)
item in execution mode: one URL unless either stripped id is empty. -/
def urlItemItsm (itsmBase : String) (item : Enriquecida) : List String :=
  let ucmdbid := (item.base.ucmdbId.getD "").quitarEspacios
  let fo := (item.ucmdbid_fo.getD "").quitarEspacios
  if ucmdbid = "" || fo = "" then []
  else [itsmBase ++ "/cirelationship1to1s/" ++ fo ++ "/" ++ ucmdbid]

/-- In execution mode one step of the UCMDB loop appends exactly the
item's URLs to the call log. -/
lemma pasoUcmdb_llamadas_ejecucion (deleteEndpoint token : String)
    (resp : String → Nat → Intento) (st : UcmdbEstado) (item : Enriquecida) :
    (pasoEliminarUcmdb deleteEndpoint token "ejecucion" resp st item).llamadas =
      st.llamadas ++ urlsItemUcmdb deleteEndpoint item := by
  by_cases hid : (item.base.ucmdbId.getD "").quitarEspacios = ""
  · simp [pasoEliminarUcmdb, urlsItemUcmdb, hid]
  · by_cases hfo : (item.relacion_fo.getD false && item.ucmdbid_fo.getD "N/A" != "N/A") = true
    · simp [pasoEliminarUcmdb, urlsItemUcmdb, hid, hfo]
    · simp [pasoEliminarUcmdb, urlsItemUcmdb, hid, hfo]

/-- In any non-execution mode one step of the UCMDB loop never touches
the call log. -/
lemma pasoUcmdb_llamadas_simulacion (deleteEndpoint token modo : String)
    (hm : (modo == "ejecucion") = false)
    (resp : String → Nat → Intento) (st : UcmdbEstado) (item : Enriquecida) :
    (pasoEliminarUcmdb deleteEndpoint token modo resp st item).llamadas = st.llamadas := by
  by_cases hid : (item.base.ucmdbId.getD "").quitarEspacios = ""
  · simp [pasoEliminarUcmdb, hid]
  · by_cases hfo : (item.relacion_fo.getD false && item.ucmdbid_fo.getD "N/A" != "N/A") = true
    · simp [pasoEliminarUcmdb, hid, hfo, hm]
    · simp [pasoEliminarUcmdb, hid, hfo, hm]

/-- The call log of the UCMDB fold in execution mode is the join of the
per-item URL lists. -/
lemma foldUcmdb_llamadas_ejecucion (deleteEndpoint token : String)
    (resp : String → Nat → Intento) :
    ∀ (incs : List Enriquecida) (st : UcmdbEstado),
      (incs.foldl (pasoEliminarUcmdb deleteEndpoint token "ejecucion" resp) st).llamadas =
        st.llamadas ++ ((incs.map (urlsItemUcmdb deleteEndpoint)).flatten) := by
  intro incs
  induction incs with
  | nil => intro st; simp
  | cons x t ih =>
    intro st
    simp only [List.foldl_cons, List.map_cons, List.flatten]
    rw [ih, pasoUcmdb_llamadas_ejecucion]
    simp

/-- The call log of the UCMDB fold in any non-execution mode stays
empty. -/
lemma foldUcmdb_llamadas_simulacion (deleteEndpoint token modo : String)
    (hm : (modo == "ejecucion") = false) (resp : String → Nat → Intento) :
    ∀ (incs : List Enriquecida) (st : UcmdbEstado),
      (incs.foldl (pasoEliminarUcmdb deleteEndpoint token modo resp) st).llamadas =
        st.llamadas := by
  intro incs
  induction incs with
  | nil => intro st; simp
  | cons x t ih =>
    intro st
    simp only [List.foldl_cons]
    rw [ih, pasoUcmdb_llamadas_simulacion _ _ _ hm]

/-- In execution mode one step of the ITSM loop appends exactly the
item's URL (if any) to the call log. -/
lemma pasoItsm_llamadas_ejecucion (itsmBase : String)
    (resp : String → Nat → Intento) (st : ItsmEstado) (par : Nat × Enriquecida) :
    (pasoEliminarItsm itsmBase "ejecucion" resp st par).llamadas =
      st.llamadas ++ urlItemItsm itsmBase par.2 := by
  by_cases hv : (par.2.base.ucmdbId.getD "").quitarEspacios = "" ∨
      (par.2.ucmdbid_fo.getD "").quitarEspacios = ""
  · rcases hv with hv | hv <;> simp [pasoEliminarItsm, urlItemItsm, hv]
  · push_neg at hv
    simp [pasoEliminarItsm, urlItemItsm, hv.1, hv.2]

/-- In any non-execution mode one step of the ITSM loop never touches
the call log. -/
lemma pasoItsm_llamadas_simulacion (itsmBase modo : String)
    (hm : (modo == "ejecucion") = false)
    (resp : String → Nat → Intento) (st : ItsmEstado) (par : Nat × Enriquecida) :
    (pasoEliminarItsm itsmBase modo resp st par).llamadas = st.llamadas := by
  by_cases hv : (par.2.base.ucmdbId.getD "").quitarEspacios = "" ∨
      (par.2.ucmdbid_fo.getD "").quitarEspacios = ""
  · rcases hv with hv | hv <;> simp [pasoEliminarItsm, hv]
  · push_neg at hv
    simp [pasoEliminarItsm, hv.1, hv.2, hm]

/-- The call log of the ITSM fold in execution mode is the join of the
per-item URL lists (the enumeration index is irrelevant to it). -/
lemma foldItsm_llamadas_ejecucion (itsmBase : String)
    (resp : String → Nat → Intento) :
    ∀ (l : List (Nat × Enriquecida)) (st : ItsmEstado),
      (l.foldl (pasoEliminarItsm itsmBase "ejecucion" resp) st).llamadas =
        st.llamadas ++ ((l.map (fun par => urlItemItsm itsmBase par.2)).flatten) := by
  intro l
  induction l with
  | nil => intro st; simp
  | cons x t ih =>
    intro st
    simp only [List.foldl_cons, List.map_cons, List.flatten]
    rw [ih, pasoItsm_llamadas_ejecucion]
    simp

/-- The call log of the ITSM fold in any non-execution mode stays
empty. -/
lemma foldItsm_llamadas_simulacion (itsmBase modo : String)
    (hm : (modo == "ejecucion") = false) (resp : String → Nat → Intento) :
    ∀ (l : List (Nat × Enriquecida)) (st : ItsmEstado),
      (l.foldl (pasoEliminarItsm itsmBase modo resp) st).llamadas = st.llamadas := by
  intro l
  induction l with
  | nil => intro st; simp
  | cons x t ih =>
    intro st
    simp only [List.foldl_cons]
    rw [ih, pasoItsm_llamadas_simulacion _ _ hm]

/-- Containment relation lacking its own `ucmdbId`, used by the C1
counterexample: enrichment then yields `relacion_fo = true` with the
`"N/A"` fallback id. -/
def contRelSinId : Relation := ⟨none, some "containment", some "f1", some "b"⟩

/-- Counterexample to C1 as stated: the pipeline enriches an
inconsistency to `relacion_fo = true` (its containment relation exists
and its FO CI type is whitelisted, but the containment relation carries
no id, so `ucmdbid_fo = "N/A"`), and in execute mode this
`hasForeignObject = true` inconsistency receives exactly ONE delete
call (not two) and ZERO ticketing updates (not one). -/
theorem mode_call_counts_counterexample :
    enriquecerInconsistenciasNormales [incTestigoFo] [relTestigo, contRelSinId]
        (containmentByEnd2 [relTestigo, contRelSinId]) (indexCisPorId [ciFoTestigo]) =
      [⟨incTestigoFo, some true, some "N/A"⟩] ∧
    (eliminarEnUcmdb "E" "tok" "ejecucion" (fun _ _ => Intento.status 200)
        [⟨incTestigoFo, some true, some "N/A"⟩]).llamadas.length = 1 ∧
    (eliminarEnItsm "B" "ejecucion" (fun _ _ => Intento.status 200)
        (filtroMainConFo [⟨incTestigoFo, some true, some "N/A"⟩])).llamadas.length = 0 :=
  ⟨by decide, by decide, by decide⟩

/-- C1 amended: in any non-execution mode the whole pipeline issues
zero network-mutating calls; in execute mode (with a token and a
configured ITSM base URL) the deletes issued are exactly the per-item
URL lists joined — 0 for an item whose stripped primary id is empty,
2 when `relacion_fo` holds with `ucmdbid_fo ≠ "N/A"`, 1 otherwise —
and the ticketing updates are exactly one per item that passes the FO
filters and has non-empty stripped primary and FO ids, zero
otherwise. -/
theorem mode_call_counts
    (modo token deleteEndpoint itsmBase : String)
    (respuestasUcmdb respuestasItsm : String → Nat → Intento)
    (d : JsonData) (incs : List Enriquecida)
    (hmodo : (modo == "ejecucion") = false)
    (htoken : (token == "") = false)
    (hbase : (itsmBase == "") = false) :
    (∀ tokenSim,
      (procesarReporte modo tokenSim deleteEndpoint itsmBase
          respuestasUcmdb respuestasItsm d).ucmdb.llamadas = [] ∧
      (procesarReporte modo tokenSim deleteEndpoint itsmBase
          respuestasUcmdb respuestasItsm d).itsm.llamadas = []) ∧
    (eliminarEnUcmdb deleteEndpoint token "ejecucion" respuestasUcmdb incs).llamadas =
      ((incs.map (urlsItemUcmdb deleteEndpoint)).flatten) ∧
    (∀ item, (urlsItemUcmdb deleteEndpoint item).length =
      if (item.base.ucmdbId.getD "").quitarEspacios = "" then 0
      else if (item.relacion_fo.getD false && item.ucmdbid_fo.getD "N/A" != "N/A") = true
        then 2 else 1) ∧
    (eliminarEnItsm itsmBase "ejecucion" respuestasItsm incs).llamadas =
      (((filtroItsmValidas incs).map (urlItemItsm itsmBase)).flatten) ∧
    (∀ item, (urlItemItsm itsmBase item).length =
      if ((item.base.ucmdbId.getD "").quitarEspacios != "" &&
          (item.ucmdbid_fo.getD "").quitarEspacios != "") = true then 1 else 0) := by
  refine ⟨?_, ?_, ?_, ?_, ?_⟩
  · intro tokenSim
    constructor
    · show (eliminarEnUcmdb deleteEndpoint tokenSim modo respuestasUcmdb _).llamadas = []
      rw [eliminarEnUcmdb]
      split
      · rfl
      · rw [foldUcmdb_llamadas_simulacion _ _ _ hmodo]
        rfl
    · show (eliminarEnItsm itsmBase modo respuestasItsm _).llamadas = []
      rw [eliminarEnItsm]
      split
      · rfl
      · rw [foldItsm_llamadas_simulacion _ _ hmodo]
        rfl
  · rw [eliminarEnUcmdb]
    rw [if_neg (by simp [htoken])]
    rw [foldUcmdb_llamadas_ejecucion]
    rfl
  · intro item
    by_cases hid : (item.base.ucmdbId.getD "").quitarEspacios = ""
    · simp [urlsItemUcmdb, hid]
    · by_cases hfo : (item.relacion_fo.getD false && item.ucmdbid_fo.getD "N/A" != "N/A") = true
      · simp [urlsItemUcmdb, hid, hfo]
      · simp [urlsItemUcmdb, hid, hfo]
  · rw [eliminarEnItsm, if_neg (by simp_all), foldItsm_llamadas_ejecucion]
    have hsnd : ((filtroItsmValidas incs).enum.map
        (fun par : Nat × Enriquecida => urlItemItsm itsmBase par.2)) =
        (filtroItsmValidas incs).map (urlItemItsm itsmBase) := by
      rw [show (fun par : Nat × Enriquecida => urlItemItsm itsmBase par.2) =
            (urlItemItsm itsmBase) ∘ Prod.snd from rfl,
          ← List.map_map, List.enum_map_snd]
    rw [hsnd]
    rfl
  · intro item
    by_cases hv : ((item.base.ucmdbId.getD "").quitarEspacios != "" &&
        (item.ucmdbid_fo.getD "").quitarEspacios != "") = true
    · rw [Bool.and_eq_true] at hv
      simp only [bne_iff_ne, ne_eq] at hv
      simp [urlItemItsm, hv.1, hv.2]
    · rw [if_neg hv]
      rw [Bool.and_eq_true, not_and_or] at hv
      simp only [bne_iff_ne, ne_eq, not_not] at hv
      rcases hv with hv | hv <;> simp [urlItemItsm, hv]

/-- Witness for the amended C1 at concrete mode strings, token, base
URLs and a one-item input list. -/
theorem mode_call_counts_witness :
    (("simulacion" : String) == "ejecucion") = false ∧
    (("tok" : String) == "") = false ∧
    (("B" : String) == "") = false ∧
    ((∀ tokenSim,
      (procesarReporte "simulacion" tokenSim "E" "B"
          (fun _ _ => Intento.status 200) (fun _ _ => Intento.status 200)
          ⟨[], []⟩).ucmdb.llamadas = [] ∧
      (procesarReporte "simulacion" tokenSim "E" "B"
          (fun _ _ => Intento.status 200) (fun _ _ => Intento.status 200)
          ⟨[], []⟩).itsm.llamadas = []) ∧
     (eliminarEnUcmdb "E" "tok" "ejecucion" (fun _ _ => Intento.status 200)
        [⟨incTestigoFo, some true, some "c1"⟩]).llamadas =
       (([⟨incTestigoFo, some true, some "c1"⟩].map (urlsItemUcmdb "E")).flatten) ∧
     (∀ item, (urlsItemUcmdb "E" item).length =
       if (item.base.ucmdbId.getD "").quitarEspacios = "" then 0
       else if (item.relacion_fo.getD false && item.ucmdbid_fo.getD "N/A" != "N/A") = true
         then 2 else 1) ∧
     (eliminarEnItsm "B" "ejecucion" (fun _ _ => Intento.status 200)
        [⟨incTestigoFo, some true, some "c1"⟩]).llamadas =
       (((filtroItsmValidas [⟨incTestigoFo, some true, some "c1"⟩]).map
          (urlItemItsm "B")).flatten) ∧
     (∀ item, (urlItemItsm "B" item).length =
       if ((item.base.ucmdbId.getD "").quitarEspacios != "" &&
           (item.ucmdbid_fo.getD "").quitarEspacios != "") = true then 1 else 0)) :=
  ⟨by decide, by decide, by decide,
   mode_call_counts "simulacion" "tok" "E" "B"
     (fun _ _ => Intento.status 200) (fun _ _ => Intento.status 200)
     ⟨[], []⟩ [⟨incTestigoFo, some true, some "c1"⟩]
     (by decide) (by decide) (by decide)⟩

/-- `rfind` of a single-character pattern on a list that ends with that
character returns the final index. -/
lemma rfind_ultimo (t : List Char) (c : Char) :
    rfind (t ++ [c]) [c] = (t.length : Int) := by
  have hlen : (t ++ [c]).length = t.length + 1 := by simp
  have hdropOut : (t ++ [c]).drop (t.length + 1) = [] :=
    List.drop_eq_nil_of_le (by simp)
  have hdropIn : (t ++ [c]).drop t.length = [c] := List.drop_left t [c]
  rw [rfind, hlen, rfindDesde, hdropOut]
  have hvacio : empiezaCon [c] [] = false := rfl
  rw [hvacio]
  simp only [if_false, Bool.false_eq_true]
  cases ht : t.length with
  | zero =>
    have htnil : t = [] := List.eq_nil_of_length_eq_zero ht
    subst htnil
    simp [rfindDesde, empiezaCon]
  | succ m =>
    rw [rfindDesde]
    rw [← ht, hdropIn]
    have : empiezaCon [c] [c] = true := by simp [empiezaCon]
    rw [this]
    simp [ht]

/-- Stripping trailing commas/spaces is the identity on a list ending
in any other character. -/
lemma rstrip_final_no_espacio (t : List Char) (c : Char)
    (hc : (c == ',' || c == ' ') = false) :
    rstripComaEspacio (t ++ [c]) = t ++ [c] := by
  rw [rstripComaEspacio, List.reverse_append]
  show (((([c] : List Char).reverse ++ t.reverse).dropWhile _).reverse) = t ++ [c]
  simp only [List.reverse_cons, List.reverse_nil, List.nil_append, List.cons_append,
    List.dropWhile_cons]
  rw [hc]
  simp

/-- A complete, well-formed JSON document (the object
`\x7b"a": [1], "b": 2\x7d`) used by the C8 counterexample. -/
def jsonValido : List Char := ("\x7b\"a\": [1], \"b\": 2\x7d").toList

/-- What the repair heuristic actually returns on `jsonValido`: the
document truncated at its internal `],` pattern and re-closed. -/
def jsonValidoReparado : List Char := ("\x7b\"a\": [1]\x7d").toList

/-- Counterexample to C8 as stated: the repair procedure is NOT a
no-op on this complete, well-formed JSON document — it truncates at the
right-most internal `],`/`},` pattern and discards the trailing
members. -/
theorem repair_noop_counterexample :
    reparar jsonValido = some jsonValidoReparado ∧ jsonValidoReparado ≠ jsonValido :=
  ⟨by decide, by decide⟩

/-- C8 amended: the repair procedure is not a no-op on every complete,
well-formed JSON document (see the counterexample); it is a no-op on
every document that ends in `\x7d`, contains no `\x7d,` or `],` at a
positive index, contains at least one `\x7b` and one `[`, and already
has balanced bracket and brace counts — a sufficient condition under
which repair returns the document unchanged. -/
theorem repair_noop_conditions (t : List Char)
    (hp1 : rfind (t ++ [llaveCierra]) [llaveCierra, ','] ≤ 0)
    (hp2 : rfind (t ++ [llaveCierra]) [corcheteCierra, ','] ≤ 0)
    (hbr : 0 < (t ++ [llaveCierra]).count llaveAbre)
    (hbk : 0 < (t ++ [llaveCierra]).count corcheteAbre)
    (heqk : (t ++ [llaveCierra]).count corcheteAbre = (t ++ [llaveCierra]).count corcheteCierra)
    (heqb : (t ++ [llaveCierra]).count llaveAbre = (t ++ [llaveCierra]).count llaveCierra) :
    reparar (t ++ [llaveCierra]) = some (t ++ [llaveCierra]) := by
  have ht : t ≠ [] := by
    intro h
    subst h
    revert hbr
    decide
  have htl : 0 < t.length := List.length_pos.mpr ht
  have hpc : rfind (t ++ [llaveCierra]) [llaveCierra] = (t.length : Int) :=
    rfind_ultimo t llaveCierra
  have hd1 : decide (rfind (t ++ [llaveCierra]) [llaveCierra, ','] > 0) = false :=
    decide_eq_false (not_lt.mpr hp1)
  have hd2 : decide (rfind (t ++ [llaveCierra]) [corcheteCierra, ','] > 0) = false :=
    decide_eq_false (not_lt.mpr hp2)
  have hrs : rstripComaEspacio (t ++ [llaveCierra]) = t ++ [llaveCierra] :=
    rstrip_final_no_espacio t llaveCierra (by decide)
  have hlen : (t ++ [llaveCierra]).length = t.length + 1 := by simp
  have hposInt : ((t.length : Int) > 0) := by exact_mod_cast htl
  rw [reparar, hpc, hd1, hd2]
  simp only [Bool.false_and, Bool.false_eq_true, if_false]
  rw [if_neg (not_lt.mpr hp1), if_neg (not_lt.mpr hp2), if_pos hposInt]
  simp only [Int.toNat_natCast]
  have htake : List.take (t.length + 1) (t ++ [llaveCierra]) = t ++ [llaveCierra] := by
    rw [← hlen]
    exact List.take_length (t ++ [llaveCierra])
  simp only [htake, hrs]
  have hz1 : ¬ (List.count llaveAbre (t ++ [llaveCierra]) = 0) := by omega
  have hz2 : ¬ (List.count corcheteAbre (t ++ [llaveCierra]) = 0) := by omega
  simp only [hz1, hz2, decide_eq_false, Bool.or_self, Bool.false_eq_true, if_false]
  rw [heqk, heqb, Nat.sub_self, Nat.sub_self]
  simp

/-- Document satisfying the no-op conditions, used by the C8 witness:
`\x7b"a": ["x"]\x7d` (no internal `],`/`\x7d,` pattern). -/
def jsonSinPatron : List Char := ("\x7b\"a\": [\"x\"]" : String).toList

/-- Witness for the amended C8 at a concrete document. -/
theorem repair_noop_conditions_witness :
    rfind (jsonSinPatron ++ [llaveCierra]) [llaveCierra, ','] ≤ 0 ∧
    rfind (jsonSinPatron ++ [llaveCierra]) [corcheteCierra, ','] ≤ 0 ∧
    0 < (jsonSinPatron ++ [llaveCierra]).count llaveAbre ∧
    0 < (jsonSinPatron ++ [llaveCierra]).count corcheteAbre ∧
    (jsonSinPatron ++ [llaveCierra]).count corcheteAbre =
      (jsonSinPatron ++ [llaveCierra]).count corcheteCierra ∧
    (jsonSinPatron ++ [llaveCierra]).count llaveAbre =
      (jsonSinPatron ++ [llaveCierra]).count llaveCierra ∧
    reparar (jsonSinPatron ++ [llaveCierra]) = some (jsonSinPatron ++ [llaveCierra]) :=
  ⟨by decide, by decide, by decide, by decide, by decide, by decide,
   repair_noop_conditions jsonSinPatron (by decide) (by decide) (by decide)
     (by decide) (by decide) (by decide)⟩

/-- The truncated stream contents of the C3 failing input: the download
broke inside the second member of the `cis` array. -/
def bufferTruncado : List Char := ("\x7b\"cis\":[\x7b\"a\":1\x7d,\x7b\"b\":2").toList

/-- The repaired document the heuristic of lines 163-199 computes for
`bufferTruncado` (truncated at the `\x7d,` pattern and re-closed). -/
def bufferReparado : List Char := ("\x7b\"cis\":[\x7b\"a\":1\x7d]\x7d").toList

/-- C3 evaluated at the failing input (code bug): even though more than
the 100 MB threshold was received and the repair succeeds — producing
the balanced `bufferReparado` — `consultar_reporte_ucmdb` returns the
RAW truncated buffer, because line 207 re-reads `buffer.getvalue()`
into `contenido` after line 198 stored the repaired text there.  The
returned text is the unbalanced raw data, not the repaired document. -/
theorem truncation_repair_discarded :
    manejarInterrupcion bufferTruncado (200 * 1024 * 1024) = Except.ok bufferTruncado ∧
    reparar bufferTruncado = some bufferReparado ∧
    bufferReparado ≠ bufferTruncado ∧
    bufferTruncado.count llaveAbre ≠ bufferTruncado.count llaveCierra ∧
    bufferReparado.count llaveAbre = bufferReparado.count llaveCierra ∧
    bufferReparado.count corcheteAbre = bufferReparado.count corcheteCierra :=
  ⟨rfl, by decide, by decide, by decide, by decide, by decide⟩
